import Mathlib

/-!
Shallow embedding of the `fetchero` fluent HTTP client (TypeScript) in Lean 4.

The embedding follows the source files:
  * `src/utils/error-handler.ts`  — `ErrorHandler` (compose pipeline, `makeErrorResponse`)
  * `src/core/http-client.ts`     — `HttpClient.makeRequest` / `handleRequestError`
  * the REST proxy factory (`RestProxyFactory`, unnamed source part)
  * `src/proxies/graphql-proxy.ts` — `GraphQLProxyFactory`

JavaScript objects with optional keys are modelled with `Option` fields
(`none` = key absent or `undefined`); JS `null` is a separate constructor
where the code distinguishes it.  JS truthiness on strings ("" is falsy)
is modelled explicitly at each use site, following the source expression.
Thrown JS exceptions are modelled with `Except`; an `async` function whose
body is wrapped in `try/catch` becomes a total Lean function that pattern
matches on the `Except` produced by its body.
-/

namespace Fetchero

/-- A JavaScript value appearing in the `message` position of an error
`extensions` object: a string, a plain object with string values, or `null`.
(`undefined` / key absent is modelled by `Option JsMsg = none` at use sites.) -/
inductive JsMsg where
  | str (s : String)
  | obj (fields : List (String × String))
  | null
deriving DecidableEq, Repr

/-- JS truthiness of a `JsMsg` value: `""` and `null` are falsy, every object
(including the empty object) is truthy. -/
def JsMsg.truthy : JsMsg → Bool
  | .str s => s ≠ ""
  | .obj _ => true
  | .null => false

/-- `Object.values(m).join(', ')` for an object message. -/
def JsMsg.joinValues : JsMsg → String
  | .obj fields => String.intercalate ", " (fields.map (fun p => p.2))
  | .str s => s
  | .null => ""

/-- `typeof message === 'object' && message !== null` — true exactly for
the `obj` constructor (JS `typeof null` is `'object'`, excluded by the
explicit `!== null` check; strings are not objects). -/
def JsMsg.isNonNullObject : JsMsg → Bool
  | .obj _ => true
  | _ => false

/-- `IExtensions` from `src/types/common.ts`:
`{ code?: string; message?: IMessage; [key: string]: any }`.
`extra` models extension keys other than `code` / `message` / `error`;
`errorFlag` models the `error: true` key set by `makeErrorResponse`. -/
structure IExtensions where
  code : Option String := none
  message : Option JsMsg := none
  errorFlag : Option Bool := none
  extra : List (String × String) := []
deriving DecidableEq, Repr

/-- `IErrors` from `src/types/common.ts`:
`{ extensions: IExtensions; message?: IMessage; code?: string }`. -/
structure IErrors where
  extensions : IExtensions
  message : Option JsMsg := none
  code : Option String := none
deriving DecidableEq, Repr

/-- `x || ''` applied to an optional message value: absent, `null`, and `""`
all collapse to `""`; any truthy value is kept. -/
def jsOrEmptyMsg : Option JsMsg → JsMsg
  | some v => if v.truthy then v else .str ""
  | none => .str ""

/-- `ErrorHandler.isNotFound`: true iff the first entry's
`extensions.code === '404'`. -/
def isNotFound (errors : List IErrors) : Bool :=
  match errors with
  | e :: _ => e.extensions.code == some "404"
  | [] => false

/-- `ErrorHandler.formatErrorCode({code, extensions, message})`:
returns `{ message, extensions: { code, ...extensions } }`.  In the object
spread, a `code` key already present in `extensions` wins over the lifted
`code` argument. -/
def formatErrorCode (e : IErrors) : IErrors :=
  { message := e.message
    code := none
    extensions := { e.extensions with code := e.extensions.code <|> e.code } }

/-- `ErrorHandler.formatErrorMessage({extensions, message})`:
returns `{ extensions: { message, ...extensions } }` — the outer `message`
is lifted into `extensions`, but an existing `extensions.message` key wins
in the spread. -/
def formatErrorMessage (e : IErrors) : IErrors :=
  { message := none
    code := none
    extensions := { e.extensions with message := e.extensions.message <|> e.message } }

/-- The fixed `defaultMessages` table of
`ErrorHandler.formatErrorResponse`, as a lookup function:
`{401: message, 404: message, 500: message, 422: processedMessage,
BAD_USER_INPUT: 'Input is not valid',
INTERNAL_SERVER_ERROR: 'Internal Server Error'}`.
Returns `none` for a key not present in the table. -/
def defaultMessages (message processedMessage : JsMsg) (c : String) : Option JsMsg :=
  if c = "401" ∨ c = "404" ∨ c = "500" then some message
  else if c = "422" then some processedMessage
  else if c = "BAD_USER_INPUT" then some (.str "Input is not valid")
  else if c = "INTERNAL_SERVER_ERROR" then some (.str "Internal Server Error")
  else none

/-- `ErrorHandler.formatErrorResponse({extensions})`: destructures
`{ code, message = '' }` (the default fires only when the key is absent /
`undefined`; `null` is kept), preprocesses `422` object messages by joining
their values, and resolves the final message through the
`defaultMessages` table with `code ? defaultMessages[code] || 'Unknown error' : ''`.
Only `code` and `message` survive into the returned extensions. -/
def formatErrorResponse (e : IErrors) : IErrors :=
  let code := e.extensions.code
  let message := e.extensions.message.getD (.str "")
  let processedMessage :=
    if code = some "422" ∧ message.isNonNullObject then .str message.joinValues
    else message
  let finalMessage : JsMsg :=
    match code with
    | none => .str ""
    | some c =>
      if c = "" then .str ""
      else
        match defaultMessages message processedMessage c with
        | some v => if v.truthy then v else .str "Unknown error"
        | none => .str "Unknown error"
  { message := none
    code := none
    extensions := { code := code, message := some finalMessage, errorFlag := none, extra := [] } }

/-- `ErrorHandler.compose(error)`: folds the three formatters over the raw
error.  The first formatter is invoked with
`{code: acc.extensions.code || '', extensions: acc.extensions,
message: acc.extensions.message || ''}`; the other two receive the
accumulator unchanged. -/
def compose (e : IErrors) : IErrors :=
  let stage1 := formatErrorCode
    { code := some (e.extensions.code.getD "")
      extensions := e.extensions
      message := some (jsOrEmptyMsg e.extensions.message) }
  formatErrorResponse (formatErrorMessage stage1)

/-- `ErrorHandler.makeErrorResponse({code, message})`: the simple
constructor used only for engine-synthesized failures — top-level message
`'Internal Server Error'` and extensions
`{message, error: true, code: String(code)}`. -/
def makeErrorResponse (code : Nat) (message : String) : IErrors :=
  { message := some (.str "Internal Server Error")
    code := none
    extensions :=
      { code := some (toString code)
        message := some (.str message)
        errorFlag := some true
        extra := [] } }

/-! ## HTTP client (`src/core/http-client.ts`) -/

/-- The axios-style request config, restricted to the fields
`HttpClient.makeRequest` reads or writes: `url` (checked for presence),
`timeout` (defaulted to 30000), plus `method`, `data` and `headers`
carried through. -/
structure RequestConfig where
  url : Option String := none
  timeout : Option Nat := none
  method : String := "GET"
  headers : List (String × String) := []
deriving DecidableEq, Repr

/-- The `data` field of an axios error response:
`{ message?: string; error?: string }`. -/
structure RespData where
  message : Option String := none
  error : Option String := none
deriving DecidableEq, Repr

/-- The `response` field of an axios error: HTTP status plus optional body. -/
structure ErrResponse where
  status : Nat
  rdata : Option RespData := none
deriving DecidableEq, Repr

/-- A thrown failure as `handleRequestError` views it (an `AxiosError`):
optional HTTP `response`, optional machine `code`
(`'ECONNABORTED'`, `'ENOTFOUND'`, ...), and the error's own `message`. -/
structure ErrInfo where
  response : Option ErrResponse := none
  code : Option String := none
  message : String := ""
deriving DecidableEq, Repr

/-- A plain `new Error(msg)`: no response, no code. -/
def plainError (msg : String) : ErrInfo := { message := msg }

/-- The success payload body expected from the transport:
`{ data: T, errors?: any[] }`. -/
structure Payload (α : Type) where
  pdata : Option α := none
  perrors : Option (List IErrors) := none
deriving DecidableEq, Repr

/-- The raw transport (axios) success value; `body` is `result.data`
(`none` models a falsy body, replaced by `{}` in the destructuring
`const { data, errors } = result.data || {}`). -/
structure TransportResult (α : Type) where
  status : Nat := 200
  body : Option (Payload α) := none
deriving DecidableEq, Repr

/-- `FetcherResponse` from `src/types/common.ts`:
`{ data: T | null; errors?: IErrors[] }` (`data = none` models `null`). -/
structure FetcherResponse (α : Type) where
  data : Option α := none
  errors : Option (List IErrors) := none
deriving DecidableEq, Repr

/-- `x` if the optional string is present and truthy (non-empty), else `none` —
the guard pattern of `if (error.response?.data?.message) ...`. -/
def optTruthy : Option String → Option String
  | some s => if s ≠ "" then some s else none
  | none => none

/-- `HttpClient.handleRequestError(err)`:
status = `error.response?.status ?? (error.code === 'ECONNABORTED' ? 408 : 500)`;
message chosen by the if/else chain over
`response.data.message`, `response.data.error`, the timeout code, the
DNS/connection-refused codes, `error.message || 'Network request failed'`;
returns `{data: null, errors: [makeErrorResponse({code: status, message})]}`. -/
def handleRequestError (α : Type) (e : ErrInfo) : FetcherResponse α :=
  let status : Nat :=
    match e.response with
    | some r => r.status
    | none => if e.code = some "ECONNABORTED" then 408 else 500
  let message : String :=
    match optTruthy (e.response.bind (fun r => r.rdata) |>.bind (fun d => d.message)) with
    | some m => m
    | none =>
      match optTruthy (e.response.bind (fun r => r.rdata) |>.bind (fun d => d.error)) with
      | some m => m
      | none =>
        if e.code = some "ECONNABORTED" then "Request timeout"
        else if e.code = some "ENOTFOUND" ∨ e.code = some "ECONNREFUSED" then
          "Network connection failed"
        else if e.message ≠ "" then e.message
        else "Network request failed"
  { data := none, errors := some [makeErrorResponse status message] }

/-- The body of the `try` block of `HttpClient.makeRequest`, with every
JS `throw` / promise rejection modelled as `Except.error`:
missing-url check (JS `!config.url`, also true for an empty-string url),
request interceptor, timeout default, transport call,
payload destructuring, GraphQL-errors normalization, response interceptor.
The request hook, the transport, and the response hook are arbitrary
(possibly throwing) functions, quantifying over every behavior. -/
def makeRequestTry (α : Type) (config : RequestConfig)
    (requestHook : Option (RequestConfig → Except ErrInfo RequestConfig))
    (transport : RequestConfig → Except ErrInfo (TransportResult α))
    (responseHook : Option (TransportResult α → Except ErrInfo (FetcherResponse α))) :
    Except ErrInfo (FetcherResponse α) := do
  if config.url.getD "" = "" then
    throw (plainError "Request URL is required")
  let hooked ← match requestHook with
    | some h => h config
    | none => pure config
  let finalConfig := { hooked with timeout := some (hooked.timeout.getD 30000) }
  let result ← transport finalConfig
  let payload := result.body.getD {}
  let response : FetcherResponse α := { data := payload.pdata, errors := none }
  let response :=
    match payload.perrors with
    | some es => if es ≠ [] then { response with errors := some (es.map compose) } else response
    | none => response
  match responseHook with
  | some h => h result
  | none => pure response

/-- `HttpClient.makeRequest`: the `try` body with the surrounding
`catch (err) { return this.handleRequestError(err) }` — a total function
into `FetcherResponse`, so the returned promise never rejects. -/
def makeRequest (α : Type) (config : RequestConfig)
    (requestHook : Option (RequestConfig → Except ErrInfo RequestConfig))
    (transport : RequestConfig → Except ErrInfo (TransportResult α))
    (responseHook : Option (TransportResult α → Except ErrInfo (FetcherResponse α))) :
    FetcherResponse α :=
  match makeRequestTry α config requestHook transport responseHook with
  | .ok r => r
  | .error e => handleRequestError α e

/-! ## Header objects

JS object spread `{...a, ...b}` is modelled by list append on binding
lists: the *last* binding of a key is its value, so later spread layers
override earlier ones key-by-key.  `hGet` is the observational lookup. -/

/-- Lookup in a JS-object-as-binding-list: the last binding of `k` wins
(later object-spread layers override earlier ones). -/
def hGet (h : List (String × String)) (k : String) : Option String :=
  (h.reverse.find? (fun p => p.1 == k)).map (fun p => p.2)

/-! ## REST proxy factory (`RestProxyFactory`) -/

/-- A JS value passed as a path-segment argument to a chain invocation. -/
inductive JsArg where
  | jstr (s : String)
  | jnum (n : Int)
  | jbool (b : Bool)
  | jnull
  | jundef
deriving DecidableEq, Repr

/-- JS `String(x)` coercion on a segment argument. -/
def jsArgToString : JsArg → String
  | .jstr s => s
  | .jnum n => toString n
  | .jbool b => if b then "true" else "false"
  | .jnull => "null"
  | .jundef => "undefined"

/-- JS loose `arg != null`: false exactly for `null` and `undefined`. -/
def JsArg.isPresent : JsArg → Bool
  | .jnull => false
  | .jundef => false
  | _ => true

/-- `ProxyContext` from `src/types/common.ts`:
`{ base?: string; headers?: Record<string,string> }`.  An absent `headers`
key contributes nothing under spread, so it is modelled by the empty
binding list. -/
structure ProxyContext where
  base : Option String := none
  headers : List (String × String) := []
deriving DecidableEq, Repr

/-- The state captured by one REST proxy closure: the accumulated path
`segments` and the `ctx` threaded through `createProxy(segments, ctx)`. -/
structure RestState where
  segments : List String := []
  ctx : ProxyContext := {}
deriving DecidableEq, Repr

/-- ASCII lower-casing of one character (`toLowerCase` on the key names
appearing here is ASCII-only). -/
def jsCharLower (c : Char) : Char :=
  if 'A' ≤ c ∧ c ≤ 'Z' then Char.ofNat (c.toNat + 32) else c

/-- ASCII upper-casing of one character. -/
def jsCharUpper (c : Char) : Char :=
  if 'a' ≤ c ∧ c ≤ 'z' then Char.ofNat (c.toNat - 32) else c

/-- JS `s.toLowerCase()` (structural, ASCII). -/
def jsToLower (s : String) : String :=
  String.mk (s.data.map jsCharLower)

/-- JS `s.toUpperCase()` (structural, ASCII). -/
def jsToUpper (s : String) : String :=
  String.mk (s.data.map jsCharUpper)

/-- An ASCII whitespace character, for `trim`. -/
def isWsChar (c : Char) : Bool :=
  c = ' ' ∨ c = '\t' ∨ c = '\n' ∨ c = '\r'

/-- JS `s.trim()` (structural): strips whitespace from both ends. -/
def jsTrim (s : String) : String :=
  String.mk (((s.data.dropWhile isWsChar).reverse.dropWhile isWsChar).reverse)

/-- `RestProxyFactory.isHttpMethod`: membership of the *lowercased* key in
the set `{'get','post','put','patch','delete'}`. -/
def isHttpMethod (method : String) : Bool :=
  ["get", "post", "put", "patch", "delete"].contains (jsToLower method)

/-- The possible results of a string property access on the REST proxy. -/
inductive RestAccess where
  | baseFn
  | headersFn
  | verb (prop : String)
  | child (st : RestState)
deriving DecidableEq, Repr

/-- True exactly when a property access produced a child path proxy. -/
def RestAccess.isChild : RestAccess → Bool
  | .child _ => true
  | _ => false

/-- The `get` trap of `RestProxyFactory.createProxy`: `'base'` and
`'headers'` return configuration functions, a key passing `isHttpMethod`
returns the async terminal verb function (carrying the accessed key, which
the terminal uppercases into the HTTP method), and any other string key
returns `createProxy([...segments, prop], ctx)`. -/
def restProxyGet (st : RestState) (prop : String) : RestAccess :=
  if prop = "base" then .baseFn
  else if prop = "headers" then .headersFn
  else if isHttpMethod prop then .verb prop
  else .child { st with segments := st.segments ++ [prop] }

/-- The `base(newBase)` configuration function of the REST proxy:
`createProxy(segments, { ...ctx, base: newBase })`.  The preceding
`Validators.validateUrl` guard (throws `Invalid URL format` when the WHATWG
URL parser rejects the string) is a side-effect-free check not re-modelled
here; this is the post-validation behavior. -/
def restBase (st : RestState) (newBase : String) : RestState :=
  { st with ctx := { st.ctx with base := some newBase } }

/-- The `headers(newHeaders)` configuration function of the REST proxy:
`createProxy(segments, { ...ctx, headers: { ...ctx.headers, ...newHeaders } })`
(after the `Validators.validateHeaders` shape guard, enforced here by
typing). -/
def restHeadersStep (st : RestState) (newHeaders : List (String × String)) : RestState :=
  { st with ctx := { st.ctx with headers := st.ctx.headers ++ newHeaders } }

/-- The `apply` trap of `RestProxyFactory.createProxy`:
`args.filter(arg => arg != null).map(String)` appended to the segments. -/
def restProxyApply (st : RestState) (args : List JsArg) : RestState :=
  { st with segments := st.segments ++ (args.filter JsArg.isPresent).map jsArgToString }

/-- Per-call options of a terminal REST verb:
`{ query?, body?, headers? }` (the `body` is passed through unchanged and
not needed by the claims). -/
structure RestRequestOptions where
  query : List (String × String) := []
  headers : List (String × String) := []
deriving DecidableEq, Repr

/-- The frozen instance configuration captured by the factory:
constructor arguments `baseUrl` and default `headers`. -/
structure InstanceConfig where
  baseUrl : String
  headers : List (String × String) := []
deriving DecidableEq, Repr

/-- The request a terminal REST verb call hands to
`httpClient.makeRequest`.  The source resolves
`url = URLBuilder.build(ctx.base ?? this.baseUrl, segments, options.query)`
via `new URL(segments.join('/'), base)`; WHATWG URL stringification is not
re-modelled, so the descriptor records the builder's inputs: the chosen
base, the joined path `segments.join('/')`, and the query map. -/
structure RestDescriptor where
  urlBase : String
  urlPath : String
  query : List (String × String)
  method : String
  headers : List (String × String)
deriving DecidableEq, Repr

/-- The terminal verb function returned for an HTTP-method key:
URL from `ctx.base ?? this.baseUrl` and the segments, method
`prop.toUpperCase()`, headers
`{ ...this.headers, ...ctx.headers, ...options.headers }`. -/
def restVerbCall (inst : InstanceConfig) (st : RestState) (prop : String)
    (options : RestRequestOptions) : RestDescriptor :=
  { urlBase := st.ctx.base.getD inst.baseUrl
    urlPath := String.intercalate "/" st.segments
    query := options.query
    method := jsToUpper prop
    headers := inst.headers ++ st.ctx.headers ++ options.headers }

/-- One step of a REST chain, for exercising the proxy traps:
a property access or an invocation. -/
inductive ChainStep where
  | prop (name : String)
  | call (args : List JsArg)
deriving DecidableEq, Repr

/-- Runs a chain of accesses/invocations through the proxy traps,
returning `none` if a property access did not yield a child proxy. -/
def restChain (st : RestState) : List ChainStep → Option RestState
  | [] => some st
  | .prop n :: rest =>
    match restProxyGet st n with
    | .child s => restChain s rest
    | _ => none
  | .call args :: rest => restChain (restProxyApply st args) rest

/-- The relative path a state resolves to: `segments.join('/')`. -/
def pathOf (st : RestState) : String :=
  String.intercalate "/" st.segments

/-! ## GraphQL proxy factory (`src/proxies/graphql-proxy.ts`) -/

/-- The state captured by one query-builder closure from
`createQueryBuilder(operation, field, argsObj, ctx)`.  Argument values are
only inspected for key count and otherwise passed to the opaque
`buildQuery` collaborator, so they are modelled as `JsArg`. -/
structure BuilderState where
  operation : String
  field : String
  argsObj : List (String × JsArg) := []
  ctx : ProxyContext := {}
deriving DecidableEq, Repr

/-- The possible results of a string property access on the query builder. -/
inductive BuilderAccess where
  | selectFn
  | executeFn
  | thenFn
  | baseFn
  | headersFn
  | invalid (msg : String)
deriving DecidableEq, Repr

/-- True exactly for the `invalid` constructor (a thrown
`Invalid property` error in the source). -/
def BuilderAccess.isInvalid : BuilderAccess → Bool
  | .invalid _ => true
  | _ => false

/-- The `get` trap of `createQueryBuilder`'s proxy: the switch over
`'select' | 'execute' | 'then' | 'base' | 'headers'`, whose default branch
throws `Invalid property "<prop>". Available methods: select(fields),
execute(), base(url), headers(obj)` (modelled as the `invalid` result). -/
def queryBuilderGet (prop : String) : BuilderAccess :=
  if prop = "select" then .selectFn
  else if prop = "execute" then .executeFn
  else if prop = "then" then .thenFn
  else if prop = "base" then .baseFn
  else if prop = "headers" then .headersFn
  else .invalid ("Invalid property \"" ++ prop ++
    "\". Available methods: select(fields), execute(), base(url), headers(obj)")

/-- The builder's `base(newBase)`: a new builder with the same
operation/field/args and `{ ...ctx, base: newBase }` (post
`Validators.validateUrl`). -/
def builderBase (b : BuilderState) (newBase : String) : BuilderState :=
  { b with ctx := { b.ctx with base := some newBase } }

/-- The builder's `headers(newHeaders)`: a new builder with
`{ ...ctx, headers: { ...ctx.headers, ...newHeaders } }`. -/
def builderHeadersStep (b : BuilderState) (newHeaders : List (String × String)) : BuilderState :=
  { b with ctx := { b.ctx with headers := b.ctx.headers ++ newHeaders } }

/-- `GraphQLProxyFactory.buildGraphQLOperation`, up to the call of the
opaque `buildQuery` collaborator: validates the field name (a thrown
failure is re-wrapped with the `Failed to build GraphQL ...` prefix by the
surrounding `catch`), trims the selection, and chooses the two-part
template by whether `argsObj` has keys.  Returns the `templateParts`
handed to `buildQuery(templateParts, argsObj || \x7b\x7d)`. -/
def buildGraphQLOperation (operation fieldName : String)
    (argsObj : List (String × JsArg)) (selection : String) :
    Except String (List String) :=
  if fieldName = "" then
    .error ("Failed to build GraphQL " ++ operation ++ " for field \"" ++ fieldName ++
      "\": Field name must be a non-empty string")
  else
    let cleanedSelection := jsTrim selection
    let hasArgs := argsObj.length > 0
    let sel := if cleanedSelection ≠ "" then "\x7b " ++ cleanedSelection ++ " \x7d" else ""
    if hasArgs then
      .ok [operation ++ " \x7b " ++ fieldName ++ " (", ") " ++ sel ++ " \x7d"]
    else
      .ok [operation ++ " \x7b " ++ fieldName ++ " ", " " ++ sel ++ " \x7d"]

/-- The request `executeGraphQLQuery` hands to `httpClient.makeRequest`
(sans the opaque query/variables body):
`{ url: ctx.base ?? this.baseUrl, method: 'POST',
headers: { 'Content-Type': 'application/json', ...this.headers, ...ctx.headers } }`. -/
structure GqlRequest where
  url : String
  method : String
  headers : List (String × String)
deriving DecidableEq, Repr

/-- The transport request built by `executeGraphQLQuery` for a context. -/
def gqlExecuteRequest (inst : InstanceConfig) (ctx : ProxyContext) : GqlRequest :=
  { url := ctx.base.getD inst.baseUrl
    method := "POST"
    headers := [("Content-Type", "application/json")] ++ inst.headers ++ ctx.headers }

/-! ## Spec-side derivations (for refinement statements) -/

/-- The status derivation as the spec words it: the failure's HTTP
response status if present, else `408` if the failure's code indicates a
timeout (`ECONNABORTED`), else `500`. -/
def specFailureStatus (e : ErrInfo) : Nat :=
  match e.response with
  | some r => r.status
  | none => if e.code = some "ECONNABORTED" then 408 else 500

/-- The message derivation as the spec words it, in priority order (a
field counts as available when present and non-empty, the source's
truthiness test): the failure payload's `message` field, then its `error`
field, then `"Request timeout"` for timeouts, then
`"Network connection failed"` for `ENOTFOUND`/`ECONNREFUSED`, then the
failure's own message, then the fixed fallback. -/
def specFailureMessage (e : ErrInfo) : String :=
  match optTruthy (e.response.bind (fun r => r.rdata) |>.bind (fun d => d.message)) with
  | some m => m
  | none =>
    match optTruthy (e.response.bind (fun r => r.rdata) |>.bind (fun d => d.error)) with
    | some m => m
    | none =>
      if e.code = some "ECONNABORTED" then "Request timeout"
      else if e.code = some "ENOTFOUND" ∨ e.code = some "ECONNREFUSED" then
        "Network connection failed"
      else if e.message ≠ "" then e.message
      else "Network request failed"

/-- The final message `compose` produces, as a function of the raw
error's `extensions.code` and `extensions.message` only (the three
formatter stages depend on nothing else; proved in `compose_eval`). -/
def composedMessage (c : Option String) (m : Option JsMsg) : JsMsg :=
  let mv := m.getD (.str "")
  let cv := c.getD ""
  if cv = "" then .str ""
  else
    let processed := if cv = "422" ∧ mv.isNonNullObject then .str mv.joinValues else mv
    match defaultMessages mv processed cv with
    | some v => if v.truthy then v else .str "Unknown error"
    | none => .str "Unknown error"

/-- Convenience constructor for a raw error object with all keys spelled
out: extension `code`/`message`/`error`-flag/extra keys, then the outer
`message` and `code` fields. -/
def rawErr (c : Option String) (m : Option JsMsg) (ef : Option Bool)
    (ex : List (String × String)) (om : Option JsMsg) (oc : Option String) : IErrors :=
  { extensions := { code := c, message := m, errorFlag := ef, extra := ex }
    message := om
    code := oc }

/-- A sample instance configuration (the spec's header-merge example):
base URL with default header `Content-Type: application/json`. -/
def sampleInst : InstanceConfig :=
  { baseUrl := "https://api.example.com"
    headers := [("Content-Type", "application/json")] }

/-! ## Helper lemmas -/

theorem find?_append_eq {α : Type} (p : α → Bool) (l1 l2 : List α) :
    (l1 ++ l2).find? p = (l1.find? p).orElse (fun _ => l2.find? p) := by
  induction l1 with
  | nil => simp [List.find?]
  | cons a l ih =>
    cases hpa : p a <;> simp [List.find?, hpa, ih]

theorem hGet_append (a b : List (String × String)) (k : String) :
    hGet (a ++ b) k = (hGet b k).orElse (fun _ => hGet a k) := by
  unfold hGet
  rw [List.reverse_append, find?_append_eq]
  cases b.reverse.find? (fun p => p.1 == k) <;> simp

/-- Evaluation of the three-stage `compose` pipeline: the result depends
only on the raw error's `extensions.code` and `extensions.message`; the
final extensions carry exactly a `code` and a `message` key. -/
theorem compose_eval (ext : IExtensions) (om : Option JsMsg) (oc : Option String) :
    compose { extensions := ext, message := om, code := oc } =
      { extensions :=
          { code := some (ext.code.getD "")
            message := some (composedMessage ext.code ext.message)
            errorFlag := none
            extra := [] }
        message := none
        code := none } := by
  obtain ⟨c, m, ef, ex⟩ := ext
  cases c <;> cases m <;>
    simp [compose, formatErrorCode, formatErrorMessage, formatErrorResponse,
      composedMessage, jsOrEmptyMsg, Option.orElse]

/-! ## Claim theorems -/

/-- C1: for every request config and every behavior of the transport and
of the request/response hooks (including any of them throwing), the value
returned by `makeRequest` is a total `FetcherResponse` — the promise never
rejects for these causes: whenever the `try` body threw, the result is an
envelope with `data = null` and a non-empty (singleton) `errors` list; in
particular an absent `url` yields the missing-url envelope rather than a
thrown failure. -/
theorem makeRequest_never_rejects (α : Type) (config : RequestConfig)
    (requestHook : Option (RequestConfig → Except ErrInfo RequestConfig))
    (transport : RequestConfig → Except ErrInfo (TransportResult α))
    (responseHook : Option (TransportResult α → Except ErrInfo (FetcherResponse α))) :
    (∀ e : ErrInfo,
      makeRequestTry α config requestHook transport responseHook = .error e →
        (makeRequest α config requestHook transport responseHook).data = none ∧
        ∃ err, (makeRequest α config requestHook transport responseHook).errors = some [err]) ∧
    (config.url = none →
      makeRequest α config requestHook transport responseHook =
        handleRequestError α (plainError "Request URL is required") ∧
      (makeRequest α config requestHook transport responseHook).data = none ∧
      (makeRequest α config requestHook transport responseHook).errors =
        some [makeErrorResponse 500 "Request URL is required"]) := by
  constructor
  · intro e he
    have h : makeRequest α config requestHook transport responseHook =
        handleRequestError α e := by
      unfold makeRequest
      rw [he]
    rw [h]
    exact ⟨rfl, ⟨_, rfl⟩⟩
  · intro hurl
    have htry : makeRequestTry α config requestHook transport responseHook =
        .error (plainError "Request URL is required") := by
      unfold makeRequestTry
      rw [hurl]
      rfl
    have h : makeRequest α config requestHook transport responseHook =
        handleRequestError α (plainError "Request URL is required") := by
      unfold makeRequest
      rw [htry]
    exact ⟨h, by rw [h]; rfl, by rw [h]; rfl⟩

/-- C1 witness: a concrete config with an absent url and a throwing
transport resolves to the recovered envelope. -/
theorem makeRequest_never_rejects_witness :
    ({ url := none : RequestConfig}.url = none) ∧
    makeRequest Nat { url := none } none (fun _ => .error {}) none =
      handleRequestError Nat (plainError "Request URL is required") ∧
    (makeRequest Nat { url := none } none (fun _ => .error {}) none).data = none ∧
    (makeRequest Nat { url := none } none (fun _ => .error {}) none).errors =
      some [makeErrorResponse 500 "Request URL is required"] :=
  ⟨rfl, (makeRequest_never_rejects Nat { url := none } none (fun _ => .error {}) none).2 rfl⟩

/-- C4: for every thrown failure, `handleRequestError` returns the
envelope `{data: null, errors: [makeErrorResponse(status, message)]}`
where `status` and `message` follow the spec's derivations
(`specFailureStatus`, `specFailureMessage`), so the single error's
extensions are `{code: String(status), message, error: true}`; in
particular a failure with code `'ECONNABORTED'` and no HTTP response
yields extensions `{code: '408', message: 'Request timeout', error: true}`. -/
theorem handleRequestError_envelope (α : Type) (e : ErrInfo) :
    handleRequestError α e =
      { data := none
        errors := some [makeErrorResponse (specFailureStatus e) (specFailureMessage e)] } ∧
    (makeErrorResponse (specFailureStatus e) (specFailureMessage e)).extensions =
      { code := some (toString (specFailureStatus e))
        message := some (.str (specFailureMessage e))
        errorFlag := some true
        extra := [] } ∧
    handleRequestError α { code := some "ECONNABORTED" } =
      { data := none
        errors := some [{ message := some (.str "Internal Server Error")
                          extensions := { code := some "408"
                                          message := some (.str "Request timeout")
                                          errorFlag := some true
                                          extra := [] } }] } :=
  ⟨rfl, rfl, rfl⟩

/-- The three-stage pipeline on a fully spelled-out raw error: the result
keeps only a `code` and a `message` extension key, both functions of the
raw `extensions.code` / `extensions.message` alone. -/
theorem compose_rawErr (c : Option String) (m : Option JsMsg) (ef : Option Bool)
    (ex : List (String × String)) (om : Option JsMsg) (oc : Option String) :
    compose (rawErr c m ef ex om oc) =
      rawErr (some (c.getD "")) (some (composedMessage c m)) none [] none none := by
  unfold rawErr
  exact compose_eval _ om oc

/-- C5 counterexample: the claim's universal clause "code '422' with a
non-null object message yields the comma-plus-space join of the object's
values" fails at the empty object: the join is `""`, but `compose`
produces `"Unknown error"` (the falsy table entry falls through the `||`
default). -/
theorem compose_422_empty_object_counterexample :
    (compose { extensions := { code := some "422", message := some (.obj []) } }).extensions.message
      = some (.str "Unknown error") ∧
    JsMsg.joinValues (.obj []) = "" ∧
    (.str "Unknown error" : JsMsg) ≠ .str "" := by
  decide

/-- C5 (amended): the normalizer yields exactly
`{extensions: {code, message}}` where: code `'422'` with a non-null object
message yields the comma-plus-space join of the object's values whenever
that join is non-empty (an empty join falls through the falsy table entry
to `"Unknown error"`); `'BAD_USER_INPUT'` yields `"Input is not valid"`;
`'INTERNAL_SERVER_ERROR'` yields `"Internal Server Error"`; an absent
code yields the empty string; and a code not in the fixed table
(e.g. `'UNKNOWN'`) yields `"Unknown error"`. -/
theorem compose_normalization (fields : List (String × String)) (m : Option JsMsg)
    (ef : Option Bool) (ex : List (String × String)) (om : Option JsMsg) (oc : Option String)
    (hj : JsMsg.joinValues (.obj fields) ≠ "") :
    (compose (rawErr (some "422") (some (.obj fields)) ef ex om oc)).extensions.message
      = some (.str (JsMsg.joinValues (.obj fields))) ∧
    (compose (rawErr (some "BAD_USER_INPUT") m ef ex om oc)).extensions.message
      = some (.str "Input is not valid") ∧
    (compose (rawErr (some "INTERNAL_SERVER_ERROR") m ef ex om oc)).extensions.message
      = some (.str "Internal Server Error") ∧
    (compose (rawErr none m ef ex om oc)).extensions.message
      = some (.str "") ∧
    (compose (rawErr (some "UNKNOWN") m ef ex om oc)).extensions.message
      = some (.str "Unknown error") ∧
    compose (rawErr (some "422") (some (.obj [("field1", "Error 1"), ("field2", "Error 2")]))
        ef ex om oc)
      = rawErr (some "422") (some (.str "Error 1, Error 2")) none [] none none := by
  refine ⟨?_, ?_, ?_, ?_, ?_, ?_⟩
  · rw [compose_rawErr]
    show some (composedMessage (some "422") (some (.obj fields))) = _
    unfold composedMessage
    simp [defaultMessages, JsMsg.isNonNullObject, JsMsg.truthy, hj]
  · rw [compose_rawErr]; rfl
  · rw [compose_rawErr]; rfl
  · rw [compose_rawErr]; rfl
  · rw [compose_rawErr]; rfl
  · rw [compose_rawErr]; rfl

/-- C5 witness: the amended theorem at the claim's own example object. -/
theorem compose_normalization_witness :
    JsMsg.joinValues (.obj [("field1", "Error 1"), ("field2", "Error 2")]) ≠ "" ∧
    (compose (rawErr (some "422")
        (some (.obj [("field1", "Error 1"), ("field2", "Error 2")])) none [] none none)).extensions.message
      = some (.str "Error 1, Error 2") ∧
    (compose (rawErr (some "BAD_USER_INPUT") (some (.str "Invalid input"))
        none [] none none)).extensions.message
      = some (.str "Input is not valid") :=
  ⟨by decide,
   by
    have h := compose_normalization [("field1", "Error 1"), ("field2", "Error 2")]
      (some (.str "Invalid input")) none [] none none (by decide)
    exact h.1.trans (by decide),
   (compose_normalization [("field1", "Error 1"), ("field2", "Error 2")]
      (some (.str "Invalid input")) none [] none none (by decide)).2.1⟩

/-- C10: a known table code (`'401'`, `'404'`, `'500'`, `'422'`) with a
falsy carried message (`extensions.message` absent or the empty string)
makes `compose` return `"Unknown error"`, not the empty message the table
row would suggest — the falsy table entry falls through the `||` default. -/
theorem compose_falsy_table_message (c : String) (m : Option JsMsg)
    (ef : Option Bool) (ex : List (String × String)) (om : Option JsMsg) (oc : Option String)
    (hc : c = "401" ∨ c = "404" ∨ c = "500" ∨ c = "422")
    (hm : m = none ∨ m = some (.str "")) :
    (compose (rawErr (some c) m ef ex om oc)).extensions.message
      = some (.str "Unknown error") := by
  rw [compose_rawErr]
  rcases hc with h | h | h | h <;> subst h <;>
    rcases hm with h' | h' <;> subst h' <;> rfl

/-- C10 witness: the theorem at code `'422'` with an absent message,
the configuration of the repository's own unit test. -/
theorem compose_falsy_table_message_witness :
    ((("422" : String) = "401" ∨ ("422" : String) = "404" ∨ ("422" : String) = "500"
        ∨ ("422" : String) = "422")) ∧
    (compose (rawErr (some "422") none none [] none none)).extensions.message
      = some (.str "Unknown error") :=
  ⟨by decide,
   compose_falsy_table_message "422" none none [] none none (by decide) (Or.inl rfl)⟩

/-- C2 counterexample: the claim says accessing `.GET` yields a chain
whose segment list ends with `"GET"`; in the code `isHttpMethod`
lowercases the key first, so `.GET` matches the verb branch and returns
the terminal verb function, not a child path proxy (the repository's own
test asserts `typeof proxy.users.GET === 'function'`). -/
theorem restProxyGet_uppercase_counterexample :
    restProxyGet {} "GET" = .verb "GET" ∧
    (restProxyGet {} "GET").isChild = false ∧
    isHttpMethod "GET" = true := by
  decide

/-- C2 (amended): verb matching is case-insensitive — a key lowercasing
to one of `get`, `post`, `put`, `patch`, `delete` (other than the
reserved `base`/`headers`) acts as the terminal verb whose HTTP method is
the uppercased key, and only keys that do not lowercase to a verb are
appended as path segments; in particular `.GET` is the verb issuing
method `"GET"`, not a path segment. -/
theorem restProxyGet_verb_case_insensitive (st : RestState) (prop : String)
    (inst : InstanceConfig) (options : RestRequestOptions)
    (hb : prop ≠ "base") (hh : prop ≠ "headers") :
    (isHttpMethod prop = true → restProxyGet st prop = .verb prop) ∧
    (isHttpMethod prop = false →
      restProxyGet st prop = .child { st with segments := st.segments ++ [prop] }) ∧
    isHttpMethod "GET" = true ∧
    (restVerbCall inst st "GET" options).method = "GET" := by
  refine ⟨?_, ?_, by decide, rfl⟩
  · intro hv
    simp [restProxyGet, hb, hh, hv]
  · intro hv
    simp [restProxyGet, hb, hh, hv]

/-- C2 witness: the amended theorem instantiated at `"Get"` (a verb by
case-insensitive matching) and at `"users"` (an ordinary segment). -/
theorem restProxyGet_verb_case_insensitive_witness :
    restProxyGet {} "Get" = .verb "Get" ∧
    restProxyGet {} "users" = .child { segments := ["users"] } :=
  ⟨(restProxyGet_verb_case_insensitive {} "Get" { baseUrl := "b" } {}
      (by decide) (by decide)).1 (by decide),
   (restProxyGet_verb_case_insensitive {} "users" { baseUrl := "b" } {}
      (by decide) (by decide)).2.1 (by decide)⟩

/-- C3 counterexample: with args and an empty selection the code builds
the second template part as `") " + "" + " }"` — there is no empty brace
pair: `query.user({id:123}).execute()` invokes `buildQuery` with
`["query { user (", ")  }"]`, not `["query { user (", ") {  } }"]`
(the repository's own test asserts the former shape). -/
theorem buildGraphQLOperation_execute_counterexample :
    buildGraphQLOperation "query" "user" [("id", .jnum 123)] "" =
      .ok ["query \x7b user (", ")  \x7d"] ∧
    (["query \x7b user (", ")  \x7d"] : List String) ≠
      ["query \x7b user (", ") \x7b  \x7d \x7d"] :=
  ⟨rfl, by decide⟩

/-- C3 (amended): an `execute()` call (empty selection) synthesizes the
query through `buildQuery` with a two-part template whose second part
contains no brace pair: with non-empty args the template is
`["<op> { <field> (", ")  }"]` and with empty args it is
`["<op> { <field> ", "  }"]` — e.g. `query.user({id:123}).execute()`
invokes `buildQuery` with `["query { user (", ")  }"]`. -/
theorem buildGraphQLOperation_execute_template (operation fieldName : String)
    (argsObj : List (String × JsArg)) (hf : fieldName ≠ "") (ha : argsObj ≠ []) :
    buildGraphQLOperation operation fieldName argsObj "" =
      .ok [operation ++ " \x7b " ++ fieldName ++ " (", ")  \x7d"] ∧
    buildGraphQLOperation operation fieldName [] "" =
      .ok [operation ++ " \x7b " ++ fieldName ++ " ", "  \x7d"] ∧
    buildGraphQLOperation "query" "user" [("id", .jnum 123)] "" =
      .ok ["query \x7b user (", ")  \x7d"] := by
  cases argsObj with
  | nil => exact absurd rfl ha
  | cons p rest =>
    refine ⟨?_, ?_, rfl⟩
    · unfold buildGraphQLOperation
      rw [if_neg hf]
      dsimp only
      split
      · rfl
      · next h => simp at h
    · unfold buildGraphQLOperation
      rw [if_neg hf]
      dsimp only
      split
      · next h => simp at h
      · rfl

/-- C3 witness: the amended theorem at the claim's own example. -/
theorem buildGraphQLOperation_execute_template_witness :
    ("user" : String) ≠ "" ∧
    ([(("id" : String), JsArg.jnum 123)] ≠ []) ∧
    buildGraphQLOperation "query" "user" [("id", .jnum 123)] "" =
      .ok ["query \x7b user (", ")  \x7d"] :=
  ⟨by decide, by simp,
   (buildGraphQLOperation_execute_template "query" "user" [("id", .jnum 123)]
      (by decide) (by simp)).1⟩

/-- C6: REST path accumulation — a property access with a key that is
neither reserved (`base`/`headers`) nor an HTTP verb appends exactly that
key as one segment; an invocation appends its arguments in call order
after dropping `null`/`undefined` and string-coercing the rest; the
claim's two example chains resolve to `api/v1/users/123/posts` and
`users/123/posts`. -/
theorem rest_segment_accumulation (st : RestState) (prop : String) (args : List JsArg)
    (hb : prop ≠ "base") (hh : prop ≠ "headers") (hv : isHttpMethod prop = false) :
    restProxyGet st prop = .child { st with segments := st.segments ++ [prop] } ∧
    restProxyApply st args =
      { st with segments := st.segments ++ (args.filter JsArg.isPresent).map jsArgToString } ∧
    (restChain {} [.prop "api", .prop "v1", .prop "users",
        .call [.jnum 123], .prop "posts"]).map pathOf = some "api/v1/users/123/posts" ∧
    (restChain {} [.prop "users",
        .call [.jnull, .jnum 123, .jundef, .jstr "posts"]]).map pathOf
      = some "users/123/posts" := by
  refine ⟨?_, rfl, by decide, by decide⟩
  simp [restProxyGet, hb, hh, hv]

/-- C6 witness: the accumulation theorem at the key `"users"` and the
claim's filtering example arguments. -/
theorem rest_segment_accumulation_witness :
    restProxyGet {} "users" = .child { segments := ["users"] } ∧
    restProxyApply { segments := ["users"] } [.jnull, .jnum 123, .jundef, .jstr "posts"] =
      { segments := ["users", "123", "posts"] } :=
  ⟨(rest_segment_accumulation {} "users" [] (by decide) (by decide) (by decide)).1,
   by
    have h := (rest_segment_accumulation { segments := ["users"] } "users"
      [.jnull, .jnum 123, .jundef, .jstr "posts"]
      (by decide) (by decide) (by decide)).2.1
    exact h.trans (by decide)⟩

/-- C7: for every terminal REST verb call, the headers handed to the
transport are the key-by-key union of instance default headers, then
context headers accumulated via `.headers(...)`, then the per-call
`options.headers`, later layers overriding identical keys; the claim's
`Content-Type` example resolves to `text/plain`. -/
theorem rest_header_merge (inst : InstanceConfig) (st : RestState)
    (ctxAdd : List (String × String)) (options : RestRequestOptions)
    (prop : String) (k : String) :
    hGet ((restVerbCall inst (restHeadersStep st ctxAdd) prop options).headers) k
      = (hGet options.headers k).orElse
          (fun _ => (hGet (st.ctx.headers ++ ctxAdd) k).orElse
            (fun _ => hGet inst.headers k)) ∧
    hGet ((restVerbCall sampleInst (restHeadersStep {} [("Content-Type", "application/xml")])
        "get" { headers := [("Content-Type", "text/plain")] }).headers) "Content-Type"
      = some "text/plain" := by
  constructor
  · show hGet ((inst.headers ++ (st.ctx.headers ++ ctxAdd)) ++ options.headers) k = _
    rw [hGet_append, hGet_append]
  · decide

/-- C8: chain-state immutability and sibling independence — every chain
step is a pure function returning a fresh state value: `base(u1)` and
`base(u2)` built from the same `X` keep `X`'s segments/headers and carry
their own base, and a terminal call through either sibling resolves its
URL against its own base only (REST and GraphQL alike). -/
theorem chain_state_immutability (st : RestState) (u1 u2 : String)
    (ctxAdd : List (String × String)) (inst : InstanceConfig)
    (prop : String) (options : RestRequestOptions) (b : BuilderState) :
    (restBase st u1).segments = st.segments ∧
    (restBase st u1).ctx.headers = st.ctx.headers ∧
    (restBase st u1).ctx.base = some u1 ∧
    (restBase st u2).ctx.base = some u2 ∧
    (restHeadersStep st ctxAdd).segments = st.segments ∧
    (restHeadersStep st ctxAdd).ctx.base = st.ctx.base ∧
    (restVerbCall inst (restBase st u1) prop options).urlBase = u1 ∧
    (restVerbCall inst (restBase st u2) prop options).urlBase = u2 ∧
    (builderBase b u1).operation = b.operation ∧
    (builderBase b u1).field = b.field ∧
    (builderBase b u1).argsObj = b.argsObj ∧
    (builderBase b u1).ctx.headers = b.ctx.headers ∧
    (gqlExecuteRequest inst (builderBase b u1).ctx).url = u1 ∧
    (gqlExecuteRequest inst (builderBase b u2).ctx).url = u2 :=
  ⟨rfl, rfl, rfl, rfl, rfl, rfl, rfl, rfl, rfl, rfl, rfl, rfl, rfl, rfl⟩

/-- C9 counterexample: the claim says every property name outside
`select`/`execute`/`base`/`headers` throws `InvalidProperty`; but the
builder's switch has a fifth case — accessing `then` returns the
thenable execution function, it does not throw. -/
theorem queryBuilderGet_then_counterexample :
    queryBuilderGet "then" = .thenFn ∧
    (queryBuilderGet "then").isInvalid = false ∧
    ("then" : String) ≠ "select" ∧ ("then" : String) ≠ "execute" ∧
    ("then" : String) ≠ "base" ∧ ("then" : String) ≠ "headers" := by
  decide

/-- C9 (amended): the builder's reserved names are the five
`select`, `execute`, `then`, `base`, `headers`; property access with any
other string name throws the synchronous `InvalidProperty` error whose
message enumerates the four documented method names. -/
theorem queryBuilderGet_invalid (prop : String)
    (h1 : prop ≠ "select") (h2 : prop ≠ "execute") (h3 : prop ≠ "then")
    (h4 : prop ≠ "base") (h5 : prop ≠ "headers") :
    queryBuilderGet prop = .invalid ("Invalid property \"" ++ prop ++
      "\". Available methods: select(fields), execute(), base(url), headers(obj)") := by
  simp [queryBuilderGet, h1, h2, h3, h4, h5]

/-- C9 witness: the amended theorem at the repository test's own
property name. -/
theorem queryBuilderGet_invalid_witness :
    queryBuilderGet "invalidProperty" = .invalid ("Invalid property \"" ++ "invalidProperty" ++
      "\". Available methods: select(fields), execute(), base(url), headers(obj)") :=
  queryBuilderGet_invalid "invalidProperty"
    (by decide) (by decide) (by decide) (by decide) (by decide)

end Fetchero
